import Mathlib

/-!
Shallow embedding of the PrepVista repository (video/audio communication
scoring, interview answer evaluation, resume text extraction, and the
Flask backend's auth / analysis routes), together with theorems checking
the natural-language specification against the code.

Numeric quantities that the Python code handles as floats (landmark
coordinates, durations, scores) are embedded as rationals; machine-level
floating point rounding is outside the scope of these statements.
-/

namespace PrepVista

/-! ## Python string primitives

Executable embeddings of the Python string operations the repository
relies on: `str.strip`, `str.lower`, `str.split()` (whitespace mode),
`str.split(" ")` (single-space separator mode) and `str.count`. -/

/-- Python's notion of ASCII whitespace used by `str.strip` / `str.split()`:
space, tab, newline, vertical tab, form feed, carriage return. -/
def isPySpace (c : Char) : Bool :=
  c == ' ' || c == '\t' || c == '\n' || c == '\r' ||
  c == Char.ofNat 11 || c == Char.ofNat 12

/-- `str.strip()` on the underlying character list. -/
def pyStripList (l : List Char) : List Char :=
  ((l.dropWhile isPySpace).reverse.dropWhile isPySpace).reverse

/-- Python `str.strip()`. -/
def pyStrip (s : String) : String :=
  ⟨pyStripList s.data⟩

/-- Python `str.lower()` (ASCII letters). -/
def pyLower (s : String) : String :=
  ⟨s.data.map Char.toLower⟩

/-- Word counting pass of Python `len(s.split())`: scans the characters,
counting maximal runs of non-whitespace.  The boolean records whether the
scan is currently inside a word. -/
def pyWordCountAux : List Char → Bool → ℕ
  | [], _ => 0
  | c :: rest, inWord =>
    if isPySpace c then pyWordCountAux rest false
    else (if inWord then 0 else 1) + pyWordCountAux rest true

/-- `len(s.split())`: the number of whitespace-separated words of `s`. -/
def pyWordCount (s : String) : ℕ :=
  pyWordCountAux s.data false

/-- Scanning pass of CPython `str.count`: non-overlapping occurrences,
scanning left to right; after a match the remaining `needle.length - 1`
characters of the match are skipped (tracked by the `skip` counter) so the
next match can only start after the current one ends. -/
def pyCountAux (needle : List Char) : List Char → ℕ → ℕ
  | [], _ => 0
  | c :: rest, 0 =>
    if needle.isPrefixOf (c :: rest) then
      pyCountAux needle rest (needle.length - 1) + 1
    else pyCountAux needle rest 0
  | _ :: rest, skip + 1 => pyCountAux needle rest skip

/-- Python `hay.count(needle)` for a non-empty needle: number of
non-overlapping occurrences of `needle` in `hay`, scanning left to right. -/
def pyCount (needle hay : List Char) : ℕ :=
  pyCountAux needle hay 0

/-- Python `s.split(" ")`: fields between single-space separators, empty
fields kept.  The accumulator holds the current field reversed. -/
def pySplitSpaceAux : List Char → List Char → List (List Char)
  | [], acc => [acc.reverse]
  | c :: rest, acc =>
    if c == ' ' then acc.reverse :: pySplitSpaceAux rest []
    else pySplitSpaceAux rest (c :: acc)

/-- Python `s.split(" ")`. -/
def pySplitSpace (s : String) : List String :=
  (pySplitSpaceAux s.data []).map (⟨·⟩)

/-- Concatenation of a list of strings (Python `+=` accumulation). -/
def joinAll : List String → String
  | [] => ""
  | s :: rest => s ++ joinAll rest

/-! ## Video analysis (`analysis.py`) -/

/-- Pose landmarks of one sampled frame, as produced by MediaPipe.
Only the coordinates that `analysis.py` reads are kept:
`LEFT_SHOULDER` / `RIGHT_SHOULDER` (indices 11 / 12) and
`LEFT_HIP` / `RIGHT_HIP` x-coordinates. -/
structure PoseLandmarks where
  leftShoulderX : ℚ
  leftShoulderY : ℚ
  rightShoulderX : ℚ
  rightShoulderY : ℚ
  leftHipX : ℚ
  rightHipX : ℚ
deriving Repr, DecidableEq

/-- `analysis.py` lines 397-401: a frame with pose landmarks is a good
posture sample when `abs(left_shoulder.y - right_shoulder.y) < 0.08`. -/
def postureSample (lm : PoseLandmarks) : Bool :=
  decide (|lm.leftShoulderY - lm.rightShoulderY| < 8 / 100)

/-- `analysis.py` lines 404-408: confidence sample,
`shoulder_width > hip_width * 0.8`. -/
def confidenceSample (lm : PoseLandmarks) : Bool :=
  decide (|lm.leftShoulderX - lm.rightShoulderX| >
    |lm.leftHipX - lm.rightHipX| * (8 / 10))

/-- The per-frame pose part of the sampling loop of
`analyze_video_ultrafast` (`analysis.py` lines 380-408): each sampled frame
whose pose processing detected landmarks appends one boolean posture sample
and one boolean confidence sample; frames with no detected landmarks append
nothing.  A frame is embedded as `Option PoseLandmarks` (the result of
`pose.process`). -/
def videoLoopUF : List (Option PoseLandmarks) → List Bool × List Bool
  | [] => ([], [])
  | none :: rest => videoLoopUF rest
  | some lm :: rest =>
    let (ps, cs) := videoLoopUF rest
    (postureSample lm :: ps, confidenceSample lm :: cs)

/-- `calculate_smoothed_score` (`analysis.py` lines 437-444): baseline when
no samples; otherwise the sample mean times 100 (Python sums booleans, so
the numerator is the number of `True` samples), clamped by
`min(95, max(30, raw_score))`.  The `variation` parameter is accepted and
never read, exactly as in the source. -/
def calculate_smoothed_score (samples : List Bool) (baseline variation : ℚ) : ℚ :=
  if samples = [] then baseline
  else min 95 (max 30 (((samples.count true : ℚ) / samples.length) * 100))

/-- Score assembly of `analyze_video_ultrafast` (`analysis.py`
lines 422-425): smoothed scores with baselines 65 / 60 / 65 and
variation 5. -/
def videoScoresUF (postureSamples eyeSamples confSamples : List Bool) : ℚ × ℚ × ℚ :=
  (calculate_smoothed_score postureSamples 65 5,
   calculate_smoothed_score eyeSamples 60 5,
   calculate_smoothed_score confSamples 65 5)

/-- The per-frame pose part of the `one_click_analysis` loop
(`analysis.py` lines 537-560): `posture_count` is incremented exactly when
the frame has pose landmarks and `abs(landmarks[11].y - landmarks[12].y) <
0.08` (landmark 11 is the left shoulder, 12 the right shoulder);
`frames_checked` counts every frame read. -/
def oneClickLoop : List (Option PoseLandmarks) → ℕ × ℕ
  | [] => (0, 0)
  | none :: rest =>
    let (pc, fc) := oneClickLoop rest
    (pc, fc + 1)
  | some lm :: rest =>
    let (pc, fc) := oneClickLoop rest
    (if |lm.leftShoulderY - lm.rightShoulderY| < 8 / 100 then pc + 1 else pc,
     fc + 1)

/-! ## Audio analysis (`analysis.py`, `analyze_audio_ultrafast`) -/

/-- The result dictionary of `analyze_audio_ultrafast`
(`analysis.py` lines 347-352). -/
structure AudioResults where
  wpm : ℚ
  filler_count : ℕ
  monotony : String
  duration : ℚ
deriving Repr, DecidableEq

/-- `analysis.py` line 337: the filler word list, each with surrounding
spaces. -/
def fillerWords : List String :=
  [" um ", " uh ", " like ", " you know ", " actually ", " basically "]

/-- `analysis.py` line 338:
`sum(text.lower().count(filler) for filler in filler_words)`. -/
def filler_count (text : String) : ℕ :=
  (fillerWords.map (fun f => pyCount f.data (pyLower text).data)).sum

/-- `analyze_audio_ultrafast` (`analysis.py` lines 308-356).  The audio
signal is abstract (`Audio`); the interactions with librosa and Whisper are
embedded as function parameters:
* `truncateTo30` is `y[:int(30 * sr)]`, keeping the first 30 seconds;
* `transcribe` is the Whisper pipeline, returning the raw transcript text;
* `pitchVariation` is the `np.std` of the pyin pitch track (the source sets
  it to 0 when fewer than 11 pitch frames survive; that choice is folded
  into the parameter).
`duration` is the duration of the loaded audio.  Returns `none` when the
duration is under 3 seconds or the stripped transcript is empty. -/
def analyze_audio_ultrafast {Audio : Type} (truncateTo30 : Audio → Audio)
    (transcribe : Audio → String) (pitchVariation : Audio → ℚ)
    (audio : Audio) (duration : ℚ) : Option AudioResults :=
  if duration < 3 then none
  else
    let maxDuration : ℚ := min 30 duration
    let y := if 30 < duration then truncateTo30 audio else audio
    let text := pyStrip (transcribe y)
    if text = "" then none
    else
      let wordCount := pyWordCount text
      let wpm := (wordCount : ℚ) / maxDuration * 60
      let fc := filler_count text
      let pv := pitchVariation y
      let monotony := if pv < 30 then "High" else if pv < 60 then "Medium" else "Low"
      some ⟨wpm, fc, monotony, duration⟩

/-! ## Interview answer evaluation (`interview.py`, `evaluate_answer`) -/

/-- The `Evaluation` dataclass of `interview.py`. -/
structure Evaluation where
  score : ℤ
  feedback : String
  suggestions : String
  corrected_answer : String
  keywords_matched : List String
deriving Repr, DecidableEq

/-- The JSON object returned by `get_info_from_gemini` for an evaluation
prompt: each expected key may be present or absent.  `none` at the outer
level models a failed API call / unparseable response. -/
structure GeminiEvalResponse where
  score : Option ℤ
  feedback : Option String
  suggestions : Option String
  corrected_answer : Option String
  keywords_matched : Option (List String)
deriving Repr, DecidableEq

/-- `interview.py` line 466:
`all(k in result for k in ["score", "feedback", "suggestions", "corrected_answer"])`. -/
def hasRequiredKeys (r : GeminiEvalResponse) : Bool :=
  r.score.isSome && r.feedback.isSome && r.suggestions.isSome &&
  r.corrected_answer.isSome

/-- The hard-coded fallback evaluation of `interview.py` lines 473-479,
returned when the API call fails or its response lacks a required key. -/
def fallbackEvaluation : Evaluation :=
  { score := 5
    feedback := "Could not get AI evaluation. This is a fallback."
    suggestions := "- Try to be more specific.\n- Provide more detailed examples."
    corrected_answer := "An ideal answer would provide more detail and specific examples."
    keywords_matched := [] }

/-- `Evaluation(**result)` on a complete API response (with
`keywords_matched` defaulted to `[]` when absent, `interview.py`
lines 468-470). -/
def evaluationOfResponse (r : GeminiEvalResponse) : Evaluation :=
  { score := r.score.getD 0
    feedback := r.feedback.getD ""
    suggestions := r.suggestions.getD ""
    corrected_answer := r.corrected_answer.getD ""
    keywords_matched := r.keywords_matched.getD [] }

/-- `evaluate_answer` (`interview.py` lines 435-479), as a function of the
API call's outcome: if the response exists and carries all four required
keys, the evaluation is built from it; otherwise the fallback evaluation is
returned.  The prompt construction does not influence which branch runs. -/
def evaluate_answer (apiResult : Option GeminiEvalResponse) : Evaluation :=
  match apiResult with
  | some r => if hasRequiredKeys r then evaluationOfResponse r else fallbackEvaluation
  | none => fallbackEvaluation

/-! ## JWT auth middleware (`backend/utils/auth_middleware.py`) -/

/-- Outcome of `jwt.decode` on a token string: `ExpiredSignatureError`,
`InvalidTokenError`, or a decoded payload whose `user_id` field is
`userId` (tokens are minted by `generate_token`, which always stores
`user_id`). -/
inductive DecodeOutcome
  | expired
  | invalid
  | ok (userId : String)
deriving Repr, DecidableEq

/-- Result of a request through the `token_required` decorator: either a
401 JSON error response (the wrapped route is never called), or the wrapped
route invoked with the `user_id` from the token payload. -/
inductive AuthResult
  | unauthorized (msg : String)
  | handled (userId : String)
deriving Repr, DecidableEq

/-- `token_required` (`backend/utils/auth_middleware.py` lines 6-35).
`authHeader` is the request's `Authorization` header if present; `decode`
abstracts `jwt.decode` with the configured secret.  Mirrors the source: the
token is `auth_header.split(" ")[1]` (an out-of-range index raises
`IndexError`, answered with 401 "Invalid token format"); a missing or empty
token yields 401 "Token is missing"; decode failures yield 401; otherwise
the route runs with the payload's user id. -/
def token_required (authHeader : Option String) (decode : String → DecodeOutcome) :
    AuthResult :=
  match authHeader with
  | some h =>
    match (pySplitSpace h)[1]? with
    | none => .unauthorized "Invalid token format"
    | some t =>
      if t = "" then .unauthorized "Token is missing"
      else
        match decode t with
        | .expired => .unauthorized "Token has expired"
        | .invalid => .unauthorized "Invalid token"
        | .ok uid => .handled uid
  | none => .unauthorized "Token is missing"

/-! ## File handling and the video-analysis route
(`backend/utils/file_handler.py`, `backend/routes/analysis.py`) -/

/-- `delete_file` (`backend/utils/file_handler.py` lines 38-61) over a
filesystem modelled as the list of existing paths: a falsy or non-existent
path returns `False` and changes nothing; otherwise `os.remove` deletes the
path and returns `True`.  (The source retries on `PermissionError`; file
locking is outside this model.) -/
def delete_file (fs : List String) (path : String) : Bool × List String :=
  if path = "" ∨ path ∉ fs then (false, fs)
  else (true, fs.erase path)

/-- Outcome of `analysis_service.analyze_video` inside the route's inner
`try`: a normal return carrying `(results, report_path, error=None)`, a
normal return carrying an error message, or a raised exception (which the
route's outer `except` turns into a 500).  Database writes and response
construction after a successful analysis are part of the `ok` path. -/
inductive AnalysisOutcome
  | ok (report : Option String)
  | err (msg : String)
  | exc (msg : String)
deriving Repr, DecidableEq

/-- Result of the `POST /api/analysis/video` route: HTTP status and the
resulting filesystem. -/
structure VideoRouteResult where
  status : ℕ
  fs : List String
deriving Repr, DecidableEq

/-- `analyze_video` (`backend/routes/analysis.py` lines 14-68).
`fileProvided` models `'video' in request.files`, `filename` the uploaded
filename, `saveResult` the path returned by `save_file` (`none` when
`save_file` reports an error).  After a successful save the inner
`try ... finally` runs the analysis and then unconditionally executes the
cleanup `if os.path.exists(video_path): delete_file(video_path)` — on the
success path, the analysis-error path, and the exception path alike. -/
def analyze_video_route (fs : List String) (fileProvided : Bool)
    (filename : String) (saveResult : Option String)
    (outcome : AnalysisOutcome) : VideoRouteResult :=
  if ¬ fileProvided then ⟨400, fs⟩
  else if filename = "" then ⟨400, fs⟩
  else
    match saveResult with
    | none => ⟨400, fs⟩
    | some path =>
      let fs1 := path :: fs
      let status : ℕ :=
        match outcome with
        | .ok _ => 200
        | .err _ => 500
        | .exc _ => 500
      let fs2 := if path ∈ fs1 then (delete_file fs1 path).2 else fs1
      ⟨status, fs2⟩

/-! ## Resume text extraction (`resume.py`, `extract_text_from_pdf`) -/

/-- The accumulation loop of `extract_text_from_pdf` (`resume.py`
lines 100-106): `text += page_text + '\n\n'` for each page whose
`page.extract_text()` is truthy (neither `None` nor the empty string). -/
def extractLoop : String → List (Option String) → String
  | acc, [] => acc
  | acc, p :: ps =>
    match p with
    | some t => if t = "" then extractLoop acc ps else extractLoop (acc ++ t ++ "\n\n") ps
    | none => extractLoop acc ps

/-- `extract_text_from_pdf` (`resume.py` lines 98-110).  The PDF is
embedded as `Except`: `.error` when `pdfplumber.open` or page reading
raises (any exception is caught and the empty string returned), `.ok` with
the per-page `extract_text()` results otherwise.  The accumulated text is
finally stripped. -/
def extract_text_from_pdf (pdf : Except String (List (Option String))) : String :=
  match pdf with
  | .error _ => ""
  | .ok pages => pyStrip (extractLoop "" pages)

/-- The extraction result as the specification words it: the concatenation
of the non-empty per-page texts, each followed by a blank line, the whole
stripped of surrounding whitespace. -/
def specExtractedText (pages : List (Option String)) : String :=
  pyStrip (joinAll (((pages.filterMap id).filter (fun t => t ≠ "")).map
    (fun t => t ++ "\n\n")))

/-! ## User model and password routes
(`backend/models/user.py`, `backend/routes/auth.py`) -/

/-- Python `dict.get(key, default)` over a document modelled as an
association list of string fields.  Fields holding non-string values
(timestamps, nested profile/subscription dicts) are irrelevant to the
claims and carried as strings. -/
def dget (d : List (String × String)) (key dflt : String) : String :=
  match d.find? (fun kv => kv.1 = key) with
  | some kv => kv.2
  | none => dflt

/-- The user document stored by `User.create_user`
(`backend/models/user.py` lines 15-45): the bcrypt hash is stored under the
key `password`; no `password_hash` key is ever written.  `created_at` /
`updated_at` stand in for the datetime fields; the nested `profile` and
`subscription` dicts carry no string-keyed credential and are omitted. -/
def create_user_doc (id email hashedPassword fullName createdAt updatedAt : String) :
    List (String × String) :=
  [("_id", id), ("email", email), ("password", hashedPassword),
   ("full_name", fullName), ("created_at", createdAt), ("updated_at", updatedAt)]

/-- `User._serialize_user` (`backend/models/user.py` lines 114-122):
stringifies `_id` (identity here) and pops the `password` key. -/
def serialize_user (u : List (String × String)) : List (String × String) :=
  u.filter (fun kv => kv.1 ≠ "password")

/-- `User.get_user_by_id` (`backend/models/user.py` lines 60-68) over a
users collection: find by `_id` and serialize. -/
def get_user_by_id (users : List (List (String × String))) (uid : String) :
    Option (List (String × String)) :=
  (users.find? (fun u => dget u "_id" "" = uid)).map serialize_user

/-- werkzeug's `check_password_hash`: the stored value is parsed as
`method$salt$hash` and a value with fewer than two `$` separators is
rejected as malformed (returns `False`); the genuine hash comparison on a
well-formed value is abstracted as `verify`. -/
def check_password_hash (verify : String → String → Bool)
    (pwhash password : String) : Bool :=
  if pwhash.data.count '$' < 2 then false else verify pwhash password

/-- `change_password` (`backend/routes/auth.py` lines 259-299), with both
request fields present: reject a short new password (400), a missing user
(404), a failed `check_password_hash(user.get('password_hash', ''), ...)`
(401); on success store the new werkzeug hash under `password_hash` and
answer 200.  Returns the HTTP status and the users collection after the
request. -/
def change_password (verify : String → String → Bool)
    (users : List (List (String × String)))
    (uid currentPassword newPassword newHash : String) :
    ℕ × List (List (String × String)) :=
  if newPassword.length < 6 then (400, users)
  else
    match get_user_by_id users uid with
    | none => (404, users)
    | some user =>
      if check_password_hash verify (dget user "password_hash" "") currentPassword then
        (200, users.map (fun u =>
          if dget u "_id" "" = dget user "_id" ""
          then u.filter (fun kv => kv.1 ≠ "password_hash") ++ [("password_hash", newHash)]
          else u))
      else (401, users)

/-- An analysis document (`backend/models/analysis.py`): its id, owner and
optional report path — the fields the ownership claims read. -/
structure AnalysisDoc where
  id : String
  user_id : String
  report_path : Option String
deriving Repr, DecidableEq

/-- `delete_account` (`backend/routes/auth.py` lines 366-415), with the
password confirmation field present: a missing user is 404, a failed
`check_password_hash(user.get('password_hash', ''), password)` is 401;
on success all the user's analyses and the user document are deleted.
Returns the HTTP status and both collections after the request. -/
def delete_account (verify : String → String → Bool)
    (users : List (List (String × String))) (analyses : List AnalysisDoc)
    (uid password : String) :
    ℕ × List (List (String × String)) × List AnalysisDoc :=
  match get_user_by_id users uid with
  | none => (404, users, analyses)
  | some user =>
    if check_password_hash verify (dget user "password_hash" "") password then
      let analyses2 := analyses.filter (fun a => a.user_id ≠ uid)
      let users2 := users.filter (fun u => dget u "_id" "" ≠ dget user "_id" "")
      if users.any (fun u => dget u "_id" "" = dget user "_id" "")
      then (200, users2, analyses2)
      else (500, users2, analyses2)
    else (401, users, analyses)

/-! ## Analysis model and ownership routes
(`backend/models/analysis.py`, `backend/routes/analysis.py`) -/

/-- `Analysis.get_analysis_by_id` (`backend/models/analysis.py`
lines 42-50): find the document by id. -/
def get_analysis_by_id (db : List AnalysisDoc) (aid : String) : Option AnalysisDoc :=
  db.find? (fun a => a.id = aid)

/-- Response of the report-download route. -/
inductive ReportResponse
  | notFound
  | forbidden
  | fileResponse (path : String)
deriving Repr, DecidableEq

/-- `download_report` (`backend/routes/analysis.py` lines 70-99): 404 when
the record does not exist, 403 (`forbidden`) when its `user_id` differs
from the requester, 404 when the report path is falsy or not on disk,
otherwise `send_file` of the report path.  `fs` is the set of existing
paths. -/
def download_report (db : List AnalysisDoc) (fs : List String)
    (uid aid : String) : ReportResponse :=
  match get_analysis_by_id db aid with
  | none => .notFound
  | some a =>
    if a.user_id ≠ uid then .forbidden
    else
      match a.report_path with
      | none => .notFound
      | some p => if p = "" then .notFound else if p ∈ fs then .fileResponse p else .notFound

/-- `Analysis.delete_analysis` (`backend/models/analysis.py` lines 52-61):
`delete_one` filtered on both `_id` and `user_id`; returns whether a
document was deleted, and the collection afterwards. -/
def delete_analysis_model (db : List AnalysisDoc) (aid uid : String) :
    Bool × List AnalysisDoc :=
  match db.find? (fun a => a.id = aid ∧ a.user_id = uid) with
  | some _ => (true, db.eraseP (fun a => a.id = aid ∧ a.user_id = uid))
  | none => (false, db)

/-- `delete_analysis` (`backend/routes/analysis.py` lines 137-161): when
the record exists and belongs to the requester, its report file (if truthy)
is removed and the database delete (filtered on both id and owner) runs;
otherwise 404 and nothing changes.  Returns the HTTP status, the analyses
collection and the filesystem after the request. -/
def delete_analysis_route (db : List AnalysisDoc) (fs : List String)
    (uid aid : String) : ℕ × List AnalysisDoc × List String :=
  match get_analysis_by_id db aid with
  | some a =>
    if a.user_id = uid then
      let fs2 :=
        match a.report_path with
        | some p => if p = "" then fs else (delete_file fs p).2
        | none => fs
      let del := delete_analysis_model db aid uid
      (if del.1 then 200 else 400, del.2, fs2)
    else (404, db, fs)
  | none => (404, db, fs)

end PrepVista

namespace PrepVista

/-! ## Theorems -/

/-- C1: in both analysis loops, a frame with detected landmarks counts as
good posture exactly when the absolute difference between the left-shoulder
and right-shoulder y-coordinates is strictly below 0.08: in
`analyze_video_ultrafast` the appended posture sample is that comparison,
and in `one_click_analysis` the posture counter counts exactly the frames
satisfying it. -/
theorem c1_posture_threshold :
    (∀ lm : PoseLandmarks,
      postureSample lm = true ↔ |lm.leftShoulderY - lm.rightShoulderY| < 8 / 100) ∧
    (∀ frames : List (Option PoseLandmarks),
      (videoLoopUF frames).1 = (frames.filterMap id).map postureSample) ∧
    (∀ frames : List (Option PoseLandmarks),
      (oneClickLoop frames).1 =
        ((frames.filterMap id).filter postureSample).length) := by
  refine ⟨fun lm => by simp [postureSample], ?_, ?_⟩
  · intro frames
    induction frames with
    | nil => rfl
    | cons f rest ih =>
      cases f with
      | none => simpa [videoLoopUF] using ih
      | some lm => simp [videoLoopUF, ih]
  · intro frames
    induction frames with
    | nil => rfl
    | cons f rest ih =>
      cases f with
      | none => simpa [oneClickLoop] using ih
      | some lm =>
        by_cases h : |lm.leftShoulderY - lm.rightShoulderY| < 8 / 100
        · simp [oneClickLoop, ih, h, postureSample, List.filter]
        · simp [oneClickLoop, ih, h, postureSample, List.filter]

/-- C9: `calculate_smoothed_score` returns the baseline on an empty sample
list, otherwise the sample mean times 100 clamped to `[30, 95]`; the
`variation` argument never affects the result; consequently each of the
three scores of `analyze_video_ultrafast` lies in `[30, 95]` whenever its
sample list is non-empty. -/
theorem c9_smoothed_score :
    (∀ baseline variation : ℚ,
      calculate_smoothed_score [] baseline variation = baseline) ∧
    (∀ (samples : List Bool) (baseline variation : ℚ), samples ≠ [] →
      calculate_smoothed_score samples baseline variation
        = min 95 (max 30 (((samples.count true : ℚ) / samples.length) * 100)) ∧
      30 ≤ calculate_smoothed_score samples baseline variation ∧
      calculate_smoothed_score samples baseline variation ≤ 95) ∧
    (∀ (samples : List Bool) (baseline v v' : ℚ),
      calculate_smoothed_score samples baseline v
        = calculate_smoothed_score samples baseline v') ∧
    (∀ ps es cs : List Bool, ps ≠ [] →
      30 ≤ (videoScoresUF ps es cs).1 ∧ (videoScoresUF ps es cs).1 ≤ 95) ∧
    (∀ ps es cs : List Bool, es ≠ [] →
      30 ≤ (videoScoresUF ps es cs).2.1 ∧ (videoScoresUF ps es cs).2.1 ≤ 95) ∧
    (∀ ps es cs : List Bool, cs ≠ [] →
      30 ≤ (videoScoresUF ps es cs).2.2 ∧ (videoScoresUF ps es cs).2.2 ≤ 95) := by
  have hbounds : ∀ (samples : List Bool) (baseline variation : ℚ), samples ≠ [] →
      calculate_smoothed_score samples baseline variation
        = min 95 (max 30 (((samples.count true : ℚ) / samples.length) * 100)) ∧
      30 ≤ calculate_smoothed_score samples baseline variation ∧
      calculate_smoothed_score samples baseline variation ≤ 95 := by
    intro samples baseline variation h
    unfold calculate_smoothed_score
    rw [if_neg h]
    refine ⟨rfl, le_min (by norm_num) (le_max_left _ _), min_le_left _ _⟩
  refine ⟨fun b v => rfl, hbounds, ?_, ?_, ?_, ?_⟩
  · intro samples baseline v v'
    unfold calculate_smoothed_score
    rfl
  · intro ps es cs h
    exact (hbounds ps 65 5 h).2
  · intro ps es cs h
    exact (hbounds es 60 5 h).2
  · intro ps es cs h
    exact (hbounds cs 65 5 h).2

/-- Helper: for a non-empty needle, the scan of `str.count` finds at least
one occurrence exactly when the needle occurs as a contiguous substring. -/
theorem pyCount_pos_iff_occurs (needle : List Char) (h : needle ≠ []) :
    ∀ hay : List Char, 0 < pyCount needle hay ↔ needle <:+: hay := by
  intro hay
  induction hay with
  | nil => simp [pyCount, pyCountAux, List.infix_nil, h]
  | cons c rest ih =>
    by_cases hp : needle.isPrefixOf (c :: rest)
    · constructor
      · intro _
        exact ( List.isPrefixOf_iff_prefix.mp hp).isInfix
      · intro _
        simp [pyCount, pyCountAux, hp]
    · have hcount : pyCount needle (c :: rest) = pyCount needle rest := by
        simp [pyCount, pyCountAux, hp]
      have hpre : ¬ needle <+: (c :: rest) := fun hh =>
        hp ( List.isPrefixOf_iff_prefix.mpr hh)
      rw [hcount, ih, List.infix_cons_iff]
      simp [hpre]

/-- C2: whenever the loaded duration is at least 3 seconds and the stripped
transcript of the (possibly truncated) audio is non-empty,
`analyze_audio_ultrafast` reports
`wpm = word_count / min(30, duration) * 60`, where `word_count` is the
number of whitespace-separated words of the transcript; and when the
duration exceeds 30 seconds the transcript is that of the audio truncated
to its first 30 seconds, with the divisor equal to 30. -/
theorem c2_wpm_formula {Audio : Type} (truncateTo30 : Audio → Audio)
    (transcribe : Audio → String) (pitchVariation : Audio → ℚ)
    (audio : Audio) (duration : ℚ)
    (hdur : 3 ≤ duration)
    (htext :
      pyStrip (transcribe (if 30 < duration then truncateTo30 audio else audio)) ≠ "") :
    ∃ r, analyze_audio_ultrafast truncateTo30 transcribe pitchVariation audio duration
        = some r ∧
      r.wpm = (pyWordCount (pyStrip (transcribe
          (if 30 < duration then truncateTo30 audio else audio))) : ℚ)
        / min 30 duration * 60 ∧
      (30 < duration →
        r.wpm = (pyWordCount (pyStrip (transcribe (truncateTo30 audio))) : ℚ)
          / 30 * 60) := by
  have h3 : ¬ duration < 3 := not_lt.mpr hdur
  simp only [analyze_audio_ultrafast, if_neg h3, if_neg htext]
  refine ⟨_, rfl, rfl, fun h30 => ?_⟩
  rw [if_pos h30, min_eq_left h30.le]

/-- Witness for C2: a 10-second clip transcribed to "hello world" is
reported at 2 words / 10 seconds = 12 words per minute. -/
theorem c2_wpm_formula_witness :
    ∃ r, analyze_audio_ultrafast (fun s : String => s) id (fun _ => (0 : ℚ))
        "hello world" 10 = some r ∧ r.wpm = 12 := by
  have h30 : ¬ (30 : ℚ) < 10 := by norm_num
  obtain ⟨r, h1, h2, _⟩ := c2_wpm_formula (fun s : String => s) id
    (fun _ => (0 : ℚ)) "hello world" 10 (by norm_num)
    (by rw [if_neg h30]; decide)
  refine ⟨r, h1, ?_⟩
  rw [h2, if_neg h30]
  have hwc : pyWordCount (pyStrip (id "hello world")) = 2 := by decide
  rw [hwc, min_eq_right (by norm_num : (10 : ℚ) ≤ 30)]
  norm_num

/-- C3: the reported filler count is the sum, over the six space-delimited
filler substrings, of their occurrence counts in the lowercased transcript
(occurrences as counted by Python `str.count`: non-overlapping, scanned
left to right); a filler is counted at least once exactly when it occurs,
spaces included, as a contiguous substring — so a filler word at the very
start or end of the transcript, or adjacent to punctuation, is not
counted, as the concrete instances show. -/
theorem c3_filler_count :
    (∀ {Audio : Type} (tr : Audio → Audio) (ts : Audio → String)
      (pv : Audio → ℚ) (audio : Audio) (duration : ℚ) (r : AudioResults),
      analyze_audio_ultrafast tr ts pv audio duration = some r →
      r.filler_count = (fillerWords.map (fun f => pyCount f.data
        (pyLower (pyStrip (ts (if 30 < duration then tr audio else audio)))).data)).sum) ∧
    (∀ (f : String) (l : List Char), f ∈ fillerWords →
      (0 < pyCount f.data l ↔ f.data <:+: l)) ∧
    filler_count "um I think" = 0 ∧
    filler_count "I think um" = 0 ∧
    filler_count "well, um, yes" = 0 ∧
    filler_count "I um think" = 1 := by
  refine ⟨?_, ?_, by decide, by decide, by decide, by decide⟩
  · intro Audio tr ts pv audio duration r h
    simp only [analyze_audio_ultrafast] at h
    by_cases h3 : duration < 3
    · rw [if_pos h3] at h
      exact absurd h (by simp)
    · rw [if_neg h3] at h
      by_cases he : pyStrip (ts (if 30 < duration then tr audio else audio)) = ""
      · rw [if_pos he] at h
        exact absurd h (by simp)
      · rw [if_neg he] at h
        obtain rfl := (Option.some.injEq _ _).mp h
        rfl
  · intro f l hf
    have hne : f.data ≠ [] := by
      simp only [fillerWords, List.mem_cons, List.not_mem_nil, or_false] at hf
      rcases hf with rfl | rfl | rfl | rfl | rfl | rfl <;> decide
    exact pyCount_pos_iff_occurs f.data hne l

/-- Witness for C3's quantified parts at concrete inputs: the analyzer's
reported filler count on a concrete clip, and a filler that occurs
space-delimited is counted. -/
theorem c3_filler_count_witness :
    (∃ r, analyze_audio_ultrafast (fun s : String => s) id (fun _ => (0 : ℚ))
        "I um think" 10 = some r ∧ r.filler_count = 1) ∧
    (0 < pyCount (" um ").data ("i um think").data ↔
      (" um ").data <:+: ("i um think").data) := by
  have h30 : ¬ (30 : ℚ) < 10 := by norm_num
  constructor
  · have hr : ∃ r, analyze_audio_ultrafast (fun s : String => s) id
        (fun _ => (0 : ℚ)) "I um think" 10 = some r := by
      simp only [analyze_audio_ultrafast, if_neg (by norm_num : ¬ (10 : ℚ) < 3)]
      simp only [if_neg h30]
      rw [if_neg (show pyStrip (id "I um think") ≠ "" by decide)]
      exact ⟨_, rfl⟩
    obtain ⟨r, h1⟩ := hr
    have h2 := c3_filler_count.1 (fun s : String => s) id (fun _ => (0 : ℚ))
      "I um think" 10 r h1
    rw [if_neg h30] at h2
    refine ⟨r, h1, ?_⟩
    rw [h2]
    decide
  · exact c3_filler_count.2.1 " um " ("i um think").data (by decide)

/-- C4 counterexample: the claim that every returned evaluation is the
JSON-parsed response of the API call fails — when the API call yields no
parseable response, `evaluate_answer` still returns an evaluation, the
hard-coded fallback with score 5. -/
theorem c4_delegation_counterexample :
    evaluate_answer none = fallbackEvaluation ∧
    fallbackEvaluation.score = 5 ∧
    fallbackEvaluation.feedback = "Could not get AI evaluation. This is a fallback." ∧
    ¬ (∀ apiResult : Option GeminiEvalResponse, ∃ r, apiResult = some r ∧
        evaluate_answer apiResult = evaluationOfResponse r) := by
  refine ⟨rfl, rfl, rfl, fun h => ?_⟩
  obtain ⟨r, hr, _⟩ := h none
  exact Option.noConfusion hr

/-- C4 amended: every evaluation is either built from a complete API
response (all four required keys present) or is the fixed fallback
evaluation; no evaluation is produced by any third means. -/
theorem c4_delegation_amended :
    ∀ apiResult : Option GeminiEvalResponse,
      (∃ r, apiResult = some r ∧ hasRequiredKeys r = true ∧
        evaluate_answer apiResult = evaluationOfResponse r) ∨
      evaluate_answer apiResult = fallbackEvaluation := by
  intro a
  match a with
  | none => exact Or.inr rfl
  | some r =>
    by_cases h : hasRequiredKeys r
    · exact Or.inl ⟨r, rfl, h, by simp [evaluate_answer, h]⟩
    · exact Or.inr (by simp [evaluate_answer, h])

/-- C5: a request with no `Authorization` header, a header with no token
after the scheme (no second space-separated field, or an empty one), or a
token that decodes as expired or invalid, is answered 401 and the wrapped
route is never invoked; a valid token reaches the route with the payload's
user id. -/
theorem c5_token_required_behavior :
    ∀ (authHeader : Option String) (decode : String → DecodeOutcome),
      (authHeader = none →
        token_required authHeader decode = .unauthorized "Token is missing") ∧
      (∀ h, authHeader = some h → (pySplitSpace h)[1]? = none →
        token_required authHeader decode = .unauthorized "Invalid token format") ∧
      (∀ h, authHeader = some h → (pySplitSpace h)[1]? = some "" →
        token_required authHeader decode = .unauthorized "Token is missing") ∧
      (∀ h t, authHeader = some h → (pySplitSpace h)[1]? = some t → t ≠ "" →
        decode t = .expired →
        token_required authHeader decode = .unauthorized "Token has expired") ∧
      (∀ h t, authHeader = some h → (pySplitSpace h)[1]? = some t → t ≠ "" →
        decode t = .invalid →
        token_required authHeader decode = .unauthorized "Invalid token") ∧
      (∀ h t uid, authHeader = some h → (pySplitSpace h)[1]? = some t → t ≠ "" →
        decode t = .ok uid →
        token_required authHeader decode = .handled uid) ∧
      (∀ uid, token_required authHeader decode = .handled uid →
        ∃ h t, authHeader = some h ∧ (pySplitSpace h)[1]? = some t ∧ t ≠ "" ∧
          decode t = .ok uid) := by
  intro authHeader decode
  refine ⟨?_, ?_, ?_, ?_, ?_, ?_, ?_⟩
  · rintro rfl; rfl
  · rintro h rfl hsplit
    simp [token_required, hsplit]
  · rintro h rfl hsplit
    simp [token_required, hsplit]
  · rintro h t rfl hsplit ht hdec
    simp [token_required, hsplit, ht, hdec]
  · rintro h t rfl hsplit ht hdec
    simp [token_required, hsplit, ht, hdec]
  · rintro h t uid rfl hsplit ht hdec
    simp [token_required, hsplit, ht, hdec]
  · intro uid heq
    cases authHeader with
    | none => exact absurd heq (by simp [token_required])
    | some h =>
      cases hsplit : (pySplitSpace h)[1]? with
      | none => rw [token_required, hsplit] at heq; exact absurd heq (by simp)
      | some t =>
        by_cases ht : t = ""
        · rw [token_required, hsplit] at heq
          simp [ht] at heq
        · cases hdec : decode t with
          | expired =>
            rw [token_required, hsplit] at heq
            simp [ht, hdec] at heq
          | invalid =>
            rw [token_required, hsplit] at heq
            simp [ht, hdec] at heq
          | ok u =>
            rw [token_required, hsplit] at heq
            simp [ht, hdec] at heq
            exact ⟨h, t, rfl, hsplit, ht, by rw [hdec, heq]⟩

/-- Witness for C5 at concrete inputs: a well-formed bearer token reaches
the route with the decoded user id; a missing header is rejected 401. -/
theorem c5_token_required_witness :
    token_required (some "Bearer goodtoken")
        (fun t => if t = "goodtoken" then .ok "user42" else .invalid)
      = .handled "user42" ∧
    token_required none (fun _ => .invalid) = .unauthorized "Token is missing" :=
  ⟨(c5_token_required_behavior (some "Bearer goodtoken")
      (fun t => if t = "goodtoken" then .ok "user42" else .invalid)).2.2.2.2.2.1
      "Bearer goodtoken" "goodtoken" "user42" rfl (by decide) (by decide) (by decide),
   (c5_token_required_behavior none (fun _ => .invalid)).1 rfl⟩

/-- C6: once the video file has been saved (a fresh, non-empty path), the
route deletes it again no matter how the analysis ends — success, reported
analysis error, or raised exception — because the cleanup runs in the
inner `finally` block. -/
theorem c6_video_cleanup :
    ∀ (fs : List String) (filename path : String) (outcome : AnalysisOutcome),
      filename ≠ "" → path ∉ fs → path ≠ "" →
      path ∉ (analyze_video_route fs true filename (some path) outcome).fs ∧
      (analyze_video_route fs true filename (some path) outcome).fs = fs ∧
      ((∃ rep, outcome = .ok rep) →
        (analyze_video_route fs true filename (some path) outcome).status = 200) ∧
      ((∃ m, outcome = .err m) ∨ (∃ m, outcome = .exc m) →
        (analyze_video_route fs true filename (some path) outcome).status = 500) := by
  intro fs filename path outcome hfn hnotin hne
  have hroute : (analyze_video_route fs true filename (some path) outcome).fs = fs := by
    simp only [analyze_video_route]
    rw [if_neg (by simp), if_neg hfn]
    simp only [List.mem_cons, true_or, if_pos, delete_file]
    rw [if_neg (by
      push_neg
      exact ⟨hne, by simp⟩)]
    simp [List.erase_cons_head]
  refine ⟨by rw [hroute]; exact hnotin, hroute, ?_, ?_⟩
  · rintro ⟨rep, rfl⟩
    simp only [analyze_video_route]
    rw [if_neg (by simp), if_neg hfn]
  · rintro (⟨m, rfl⟩ | ⟨m, rfl⟩) <;>
      (simp only [analyze_video_route]; rw [if_neg (by simp), if_neg hfn])

/-- Witness for C6 at a concrete input: on the analysis-error path the
uploaded file is gone from the filesystem and the route answers 500. -/
theorem c6_video_cleanup_witness :
    "uploads/videos/v.webm" ∉ (analyze_video_route [] true "v.webm"
      (some "uploads/videos/v.webm") (.err "boom")).fs ∧
    (analyze_video_route [] true "v.webm"
      (some "uploads/videos/v.webm") (.err "boom")).status = 500 := by
  have h := c6_video_cleanup [] "v.webm" "uploads/videos/v.webm" (.err "boom")
    (by decide) (by simp) (by decide)
  exact ⟨h.1, h.2.2.2 (Or.inl ⟨"boom", rfl⟩)⟩

/-- Helper: the accumulation loop of the PDF extraction equals the
concatenation of the kept page texts, each followed by a blank line. -/
theorem extractLoop_eq :
    ∀ (ps : List (Option String)) (acc : String),
      extractLoop acc ps
        = acc ++ joinAll (((ps.filterMap id).filter (fun t => t ≠ "")).map
            (fun t => t ++ "\n\n")) := by
  intro ps
  induction ps with
  | nil => intro acc; simp [extractLoop, joinAll]
  | cons p rest ih =>
    intro acc
    cases p with
    | none => simp [extractLoop, ih]
    | some t =>
      by_cases ht : t = ""
      · subst ht
        simp [extractLoop, ih]
      · simp [extractLoop, ht, ih, joinAll, String.append_assoc]

/-- C7: on a readable PDF the extraction returns the concatenation of the
per-page texts that are present and non-empty, each followed by a blank
line, the result stripped of surrounding whitespace; any exception while
opening or reading yields the empty string. -/
theorem c7_pdf_extraction :
    (∀ e : String, extract_text_from_pdf (.error e) = "") ∧
    (∀ pages : List (Option String),
      extract_text_from_pdf (.ok pages) = specExtractedText pages) := by
  refine ⟨fun e => rfl, fun pages => ?_⟩
  show pyStrip (extractLoop "" pages) = specExtractedText pages
  unfold specExtractedText
  rw [extractLoop_eq pages "", String.empty_append]

/-- C8: registration stores the bcrypt hash under `password`, serialization
removes it, and no `password_hash` key is ever stored — so the
`user.get('password_hash', '')` read by the change-password and
delete-account routes always yields the empty string, werkzeug rejects it
as a malformed hash for every submitted password, the 200 success branch is
unreachable, and both collections are left unchanged (only 400/404/401 can
be answered). -/
theorem c8_password_hash_never_matches :
    ∀ (verify : String → String → Bool)
      (id email hashedPassword fullName createdAt updatedAt : String)
      (analyses : List AnalysisDoc)
      (uid currentPassword newPassword newHash password : String),
      dget (create_user_doc id email hashedPassword fullName createdAt updatedAt)
        "password" "" = hashedPassword ∧
      dget (serialize_user (create_user_doc id email hashedPassword fullName
        createdAt updatedAt)) "password" "" = "" ∧
      dget (serialize_user (create_user_doc id email hashedPassword fullName
        createdAt updatedAt)) "password_hash" "" = "" ∧
      (change_password verify
        [create_user_doc id email hashedPassword fullName createdAt updatedAt]
        uid currentPassword newPassword newHash).1 ≠ 200 ∧
      (change_password verify
        [create_user_doc id email hashedPassword fullName createdAt updatedAt]
        uid currentPassword newPassword newHash).2
        = [create_user_doc id email hashedPassword fullName createdAt updatedAt] ∧
      (delete_account verify
        [create_user_doc id email hashedPassword fullName createdAt updatedAt]
        analyses uid password).1 ≠ 200 ∧
      (delete_account verify
        [create_user_doc id email hashedPassword fullName createdAt updatedAt]
        analyses uid password).2.1
        = [create_user_doc id email hashedPassword fullName createdAt updatedAt] ∧
      (delete_account verify
        [create_user_doc id email hashedPassword fullName createdAt updatedAt]
        analyses uid password).2.2 = analyses := by
  intro verify id email hashedPassword fullName createdAt updatedAt analyses
    uid currentPassword newPassword newHash password
  have hcheck : ∀ c : String,
      check_password_hash verify (dget (serialize_user (create_user_doc id email
        hashedPassword fullName createdAt updatedAt)) "password_hash" "") c
        = false := fun _ => rfl
  have hget : get_user_by_id
        [create_user_doc id email hashedPassword fullName createdAt updatedAt] uid
        = none ∨
      get_user_by_id
        [create_user_doc id email hashedPassword fullName createdAt updatedAt] uid
        = some (serialize_user (create_user_doc id email hashedPassword fullName
          createdAt updatedAt)) := by
    unfold get_user_by_id
    cases hf : List.find? (fun u => dget u "_id" "" = uid)
        [create_user_doc id email hashedPassword fullName createdAt updatedAt] with
    | none => exact Or.inl rfl
    | some u =>
      have hu := List.eq_of_mem_singleton (List.mem_of_find?_eq_some hf)
      subst hu
      exact Or.inr rfl
  refine ⟨rfl, rfl, rfl, ?_⟩
  have hchange :
      (change_password verify
        [create_user_doc id email hashedPassword fullName createdAt updatedAt]
        uid currentPassword newPassword newHash).1 ≠ 200 ∧
      (change_password verify
        [create_user_doc id email hashedPassword fullName createdAt updatedAt]
        uid currentPassword newPassword newHash).2
        = [create_user_doc id email hashedPassword fullName createdAt updatedAt] := by
    unfold change_password
    by_cases hlen : newPassword.length < 6
    · rw [if_pos hlen]
      exact ⟨by simp, rfl⟩
    · rw [if_neg hlen]
      rcases hget with hg | hg <;> rw [hg]
      · exact ⟨by simp, rfl⟩
      · constructor
        · simp [hcheck currentPassword]
        · simp [hcheck currentPassword]
  have hdelete :
      (delete_account verify
        [create_user_doc id email hashedPassword fullName createdAt updatedAt]
        analyses uid password).1 ≠ 200 ∧
      (delete_account verify
        [create_user_doc id email hashedPassword fullName createdAt updatedAt]
        analyses uid password).2.1
        = [create_user_doc id email hashedPassword fullName createdAt updatedAt] ∧
      (delete_account verify
        [create_user_doc id email hashedPassword fullName createdAt updatedAt]
        analyses uid password).2.2 = analyses := by
    unfold delete_account
    rcases hget with hg | hg <;> rw [hg]
    · exact ⟨by simp, rfl, rfl⟩
    · refine ⟨?_, ?_, ?_⟩
      · simp [hcheck password]
      · simp [hcheck password]
      · simp [hcheck password]
  exact ⟨hchange.1, hchange.2, hdelete.1, hdelete.2.1, hdelete.2.2⟩

/-- C10: the report download responds with a file only for a record owned
by the requester (and `forbidden` — 403 — on an ownership mismatch), and
the delete route removes nothing on a mismatch; records belonging to other
users always survive a delete request. -/
theorem c10_ownership :
    ∀ (db : List AnalysisDoc) (fs : List String) (uid aid : String),
      (∀ p, download_report db fs uid aid = .fileResponse p →
        ∃ a, get_analysis_by_id db aid = some a ∧ a.user_id = uid ∧
          a.report_path = some p) ∧
      (∀ a, get_analysis_by_id db aid = some a → a.user_id ≠ uid →
        download_report db fs uid aid = .forbidden ∧
        (delete_analysis_route db fs uid aid).1 = 404 ∧
        (delete_analysis_route db fs uid aid).2.1 = db ∧
        (delete_analysis_route db fs uid aid).2.2 = fs) ∧
      (∀ a, a ∈ db → a.user_id ≠ uid →
        a ∈ (delete_analysis_route db fs uid aid).2.1) := by
  intro db fs uid aid
  refine ⟨?_, ?_, ?_⟩
  · intro p hp
    unfold download_report at hp
    cases hga : get_analysis_by_id db aid with
    | none => rw [hga] at hp; simp at hp
    | some a =>
      rw [hga] at hp
      by_cases hu : a.user_id ≠ uid
      · simp [hu] at hp
      · simp only [hu, if_false, ite_false] at hp
        cases hrp : a.report_path with
        | none => rw [hrp] at hp; simp at hp
        | some q =>
          rw [hrp] at hp
          by_cases hq : q = ""
          · simp [hq] at hp
          · by_cases hmem : q ∈ fs
            · simp [hq, hmem] at hp
              exact ⟨a, rfl, not_not.mp hu, by rw [hrp, hp]⟩
            · simp [hq, hmem] at hp
  · intro a hga hu
    have hdownload : download_report db fs uid aid = .forbidden := by
      unfold download_report
      rw [hga]
      simp [hu]
    have hdl : delete_analysis_route db fs uid aid = (404, db, fs) := by
      unfold delete_analysis_route
      rw [hga]
      simp [hu]
    exact ⟨hdownload, by rw [hdl], by rw [hdl], by rw [hdl]⟩
  · intro a hmem hu
    unfold delete_analysis_route
    cases hga : get_analysis_by_id db aid with
    | none => exact hmem
    | some b =>
      by_cases hb : b.user_id = uid
      · cases hf : List.find? (fun x => x.id = aid ∧ x.user_id = uid) db with
        | none =>
          simp only [hb, if_true, delete_analysis_model, hf]
          exact hmem
        | some c =>
          simp only [hb, if_true, delete_analysis_model, hf]
          exact (List.mem_eraseP_of_neg (by simp [hu])).mpr hmem
      · simp only [hb, if_false, ite_false]
        exact hmem

/-- Witness for C10 at concrete inputs: a request by user `u2` for user
`u1`'s analysis is answered `forbidden`, and `u1`'s record survives `u2`'s
delete request. -/
theorem c10_ownership_witness :
    download_report [⟨"a1", "u1", some "r1.docx"⟩] ["r1.docx"] "u2" "a1"
      = .forbidden ∧
    (⟨"a1", "u1", some "r1.docx"⟩ : AnalysisDoc)
      ∈ (delete_analysis_route [⟨"a1", "u1", some "r1.docx"⟩] ["r1.docx"]
          "u2" "a1").2.1 := by
  have h := c10_ownership [⟨"a1", "u1", some "r1.docx"⟩] ["r1.docx"] "u2" "a1"
  exact ⟨(h.2.1 ⟨"a1", "u1", some "r1.docx"⟩ (by decide) (by decide)).1,
    h.2.2 ⟨"a1", "u1", some "r1.docx"⟩ (by decide) (by decide)⟩

/-- Witness for C9 at concrete inputs. -/
theorem c9_smoothed_score_witness :
    (([true, false] : List Bool) ≠ [] ∧
      30 ≤ (videoScoresUF [true, false] [] []).1 ∧
      (videoScoresUF [true, false] [] []).1 ≤ 95) ∧
    calculate_smoothed_score [] 65 5 = 65 :=
  ⟨⟨by decide, (c9_smoothed_score.2.2.2.1 [true, false] [] [] (by decide))⟩,
   c9_smoothed_score.1 65 5⟩

end PrepVista
